import Mathlib

/-!
Verification of the Windows POSIX-emulation layer of the ciao repository:
a shallow embedding of `src/windows/patches/signals_win32.c` and
`src/windows/patches/process_win32.c`, followed by theorems checking the
specification's claims against the embedded code.

Modelling conventions:
  * Kernel HANDLE values are `Nat`, with `0` standing for `NULL`.
  * C `errno` values use the Microsoft CRT numbering
    (EPERM 1, ENOENT 2, ESRCH 3, ECHILD 10, ENOMEM 12, EACCES 13).
  * Win32 error codes use their documented numeric values
    (ERROR_FILE_NOT_FOUND 2, ERROR_PATH_NOT_FOUND 3, ERROR_ACCESS_DENIED 5).
  * A handler invocation performed by the code on the current thread is
    recorded as a `Call` in the returned call list, in program order; an
    empty list means no handler was invoked before the function returned.
  * The outcome of OS primitives that can fail (CreateEventW,
    CreateTimerQueueTimer, CreatePipe, malloc, CreateProcessW,
    _open_osfhandle, OpenProcess, TerminateProcess) is supplied by an
    environment record, so that every control path of the C code is
    reachable in the model.
-/

namespace CiaoWin32

/-- Signal numbers as seen by `signals_win32.c`: SIGINT is 2 in the
Microsoft CRT; SIGALRM and SIGUSR1 come from the fallback definitions in
the source (`#define SIGALRM 14`, `#define SIGUSR1 30`). -/
def SIGINT : Int := 2

/-- SIGALRM fallback value from `signals_win32.c` / `os_signal.h`. -/
def SIGALRM : Int := 14

/-- SIGUSR1 fallback value from `signals_win32.c` / `os_signal.h`. -/
def SIGUSR1 : Int := 30

/-- CRT errno values used by the embedded code. -/
def EPERM : Int := 1

def ENOENT : Int := 2

def ESRCH : Int := 3

def ECHILD : Int := 10

def ENOMEM : Int := 12

def EACCES : Int := 13

/-- Win32 GetLastError codes branched on by `win32_create_process`. -/
def ERROR_FILE_NOT_FOUND : Nat := 2

def ERROR_PATH_NOT_FOUND : Nat := 3

def ERROR_ACCESS_DENIED : Nat := 5

/-- A signal-handler disposition: `SIG_DFL` (the null pointer in the
Microsoft CRT), `SIG_IGN`, or an installed callback identified by its code
address. -/
inductive Handler where
  | dfl
  | ign
  | custom (addr : Nat)
deriving DecidableEq, Repr

/-- One synchronous handler invocation: the callback address called and
the signal number passed to it. -/
structure Call where
  addr : Nat
  sig : Int
deriving DecidableEq, Repr

/-- The process-wide mutable state of `signals_win32.c`:
`g_interrupt_event` (existence and signaled flag), `g_alarm_event`
(existence and signaled flag), `g_alarm_timer`, and the three handler
registry slots. The events are auto-reset events, so the signaled flag is
cleared when a waiter consumes it. -/
structure SigState where
  interruptEvent : Bool
  interruptSet : Bool
  alarmEvent : Bool
  alarmSet : Bool
  alarmTimer : Bool
  sigintHandler : Handler
  sigalrmHandler : Handler
  sigusr1Handler : Handler
deriving DecidableEq, Repr

/-- `if (g_interrupt_event) SetEvent(g_interrupt_event);` -/
def setInterruptEvent (s : SigState) : SigState :=
  if s.interruptEvent then { s with interruptSet := true } else s

/-- `if (g_alarm_event) SetEvent(g_alarm_event);` -/
def setAlarmEvent (s : SigState) : SigState :=
  if s.alarmEvent then { s with alarmSet := true } else s

/-- The console-control event codes dispatched by `win32_ctrl_handler`. -/
inductive CtrlEvent where
  | ctrlC
  | ctrlBreak
  | close
  | logoff
  | shutdown
  | other (code : Nat)
deriving DecidableEq, Repr

/-- `win32_ctrl_handler` (signals_win32.c lines 42-63): the console
control callback. Returns the updated state, the handler invocations it
performed, and the BOOL it reports to the OS (`true` = handled). -/
def win32_ctrl_handler (s : SigState) (ev : CtrlEvent) :
    SigState × List Call × Bool :=
  match ev with
  | .ctrlC | .ctrlBreak =>
      match s.sigintHandler with
      | .custom f => (setInterruptEvent s, [⟨f, SIGINT⟩], true)
      | .dfl => (s, [], false)
      | .ign => (setInterruptEvent s, [], true)
  | .close | .logoff | .shutdown => (setInterruptEvent s, [], false)
  | .other _ => (s, [], false)

/-- `alarm_timer_callback` (signals_win32.c lines 188-198): the timer
queue callback run when the armed alarm fires. It calls the registered
SIGALRM handler when that handler is neither SIG_DFL nor SIG_IGN, and
then signals `g_alarm_event` (not `g_interrupt_event`). -/
def alarm_timer_callback (s : SigState) : SigState × List Call :=
  let calls : List Call :=
    match s.sigalrmHandler with
    | .custom f => [⟨f, SIGALRM⟩]
    | _ => []
  (setAlarmEvent s, calls)

/-- `win32_wait_interrupt` (signals_win32.c lines 223-227): block until
the interrupt indicator `g_interrupt_event` is signaled. Returns 0 when
the wait consumed the (auto-reset) event and -1 otherwise (no event, or
timeout with the event unsignaled). -/
def win32_wait_interrupt (s : SigState) : SigState × Int :=
  if !s.interruptEvent then (s, -1)
  else if s.interruptSet then ({ s with interruptSet := false }, 0)
  else (s, -1)

/-- Result of `win32_signal`: either the registry slot was swapped and the
previous value returned, or the call was forwarded to the CRT `signal`. -/
inductive SigRegResult where
  | registered (prev : Handler) (s : SigState)
  | delegated (sig : Int) (h : Handler)
deriving DecidableEq, Repr

/-- `win32_signal` (signals_win32.c lines 154-182): swap-and-return for
SIGINT / SIGALRM / SIGUSR1, pass-through to the CRT for anything else. -/
def win32_signal (s : SigState) (sig : Int) (h : Handler) : SigRegResult :=
  if sig = SIGINT then .registered s.sigintHandler { s with sigintHandler := h }
  else if sig = SIGALRM then .registered s.sigalrmHandler { s with sigalrmHandler := h }
  else if sig = SIGUSR1 then .registered s.sigusr1Handler { s with sigusr1Handler := h }
  else .delegated sig h

/-- Timer-queue operations performed by `win32_alarm`, in program order. -/
inductive TimerAction where
  | cancel
  | create (seconds : Nat)
deriving DecidableEq, Repr

/-- `win32_alarm` (signals_win32.c lines 201-217). `createOk` supplies the
outcome of `CreateTimerQueueTimer`; on its failure `g_alarm_timer` is left
NULL. Returns (state, timer-queue actions, return value). -/
def win32_alarm (s : SigState) (seconds : Nat) (createOk : Bool) :
    SigState × List TimerAction × Nat :=
  let step1 : SigState × List TimerAction :=
    if s.alarmTimer then ({ s with alarmTimer := false }, [TimerAction.cancel])
    else (s, [])
  if seconds = 0 then (step1.1, step1.2, 0)
  else if createOk then
    ({ step1.1 with alarmTimer := true }, step1.2 ++ [TimerAction.create seconds], 0)
  else (step1.1, step1.2 ++ [TimerAction.create seconds], 0)

/-- Outcomes of the OS primitives used by `win32_signals_init`. -/
structure InitEnv where
  interruptEventOk : Bool
  alarmEventOk : Bool
  extEventOk : Bool
  threadOk : Bool
deriving DecidableEq, Repr

/-- Which pieces of signal-subsystem state exist after initialization:
the two anonymous kernel events, the installed console control handler,
the named external-interrupt event and the watcher thread. -/
structure InitState where
  interruptEvent : Bool
  alarmEvent : Bool
  ctrlHandlerInstalled : Bool
  extEvent : Bool
  watcherThread : Bool
deriving DecidableEq, Repr

/-- `win32_signals_init` (signals_win32.c lines 91-115). Creates both
anonymous events first; if either creation failed it returns -1
immediately (without closing the event that was created). Otherwise it
installs the console handler, creates the named external event and, when
that succeeded, starts the watcher thread. -/
def win32_signals_init (env : InitEnv) : InitState × Int :=
  let st0 : InitState :=
    { interruptEvent := env.interruptEventOk
      alarmEvent := env.alarmEventOk
      ctrlHandlerInstalled := false
      extEvent := false
      watcherThread := false }
  if !env.interruptEventOk || !env.alarmEventOk then (st0, -1)
  else
    let st1 := { st0 with ctrlHandlerInstalled := true }
    let st2 := { st1 with extEvent := env.extEventOk }
    let st3 := { st2 with watcherThread := env.extEventOk && env.threadOk }
    (st3, 0)

/-- Environment for `win32_kill`: the current process id and the outcomes
of `OpenProcess` (query and terminate rights) and `TerminateProcess` for
each foreign pid. -/
structure KillEnv where
  currentPid : Int
  openQueryOk : Int → Bool
  openTermOk : Int → Bool
  terminateOk : Int → Bool

/-- Outcome of `win32_kill`: a plain return value, a return value with
errno set, or a forward to the CRT `raise`. -/
inductive KillResult where
  | ret (v : Int)
  | retErrno (v : Int) (errno : Int)
  | raised (sig : Int)
deriving DecidableEq, Repr

/-- `win32_kill` (signals_win32.c lines 264-301). For pid 0 or the current
pid: a SIGINT dispatches the stored handler when it is a real callback
(non-null, not SIG_DFL, not SIG_IGN) and returns 0; any other signal is
forwarded to `raise`. For a foreign pid: sig 0 is an existence probe,
anything else opens the process for termination and terminates it. -/
def win32_kill (env : KillEnv) (s : SigState) (pid sig : Int) :
    SigState × List Call × KillResult :=
  if pid = 0 ∨ pid = env.currentPid then
    if sig = SIGINT then
      match s.sigintHandler with
      | .custom f => (s, [⟨f, sig⟩], .ret 0)
      | _ => (s, [], .ret 0)
    else (s, [], .raised sig)
  else if sig = 0 then
    if env.openQueryOk pid then (s, [], .ret 0) else (s, [], .ret (-1))
  else if !(env.openTermOk pid) then (s, [], .retErrno (-1) ESRCH)
  else if !(env.terminateOk pid) then (s, [], .retErrno (-1) EPERM)
  else (s, [], .ret 0)

/-- `win32_process_info_t` (process_win32.c lines 28-35): pid, process and
thread handles (0 = NULL), and the three parent-side pipe descriptors
(-1 = not redirected / closed). -/
structure win32_process_info where
  pid : Nat
  hProcess : Nat
  hThread : Nat
  stdin_fd : Int
  stdout_fd : Int
  stderr_fd : Int
deriving DecidableEq, Repr

/-- The all-sentinel process record: the state `win32_create_process`
starts from and `win32_close_process` resets to. -/
def proc_info_sentinel : win32_process_info :=
  { pid := 0, hProcess := 0, hThread := 0
    stdin_fd := -1, stdout_fd := -1, stderr_fd := -1 }

/-- A close operation performed by `win32_close_process`: `_close` on a
CRT descriptor or `CloseHandle` on a kernel handle. -/
inductive CloseCall where
  | fd (n : Int)
  | handle (h : Nat)
deriving DecidableEq, Repr

/-- `win32_close_process` (process_win32.c lines 271-279): `_close` each
descriptor that is ≥ 0, `CloseHandle` each non-NULL handle, then memset
the record to zero and set the three descriptors to -1. -/
def win32_close_process (info : win32_process_info) :
    win32_process_info × List CloseCall :=
  let calls : List CloseCall :=
    (if info.stdin_fd ≥ 0 then [CloseCall.fd info.stdin_fd] else []) ++
    (if info.stdout_fd ≥ 0 then [CloseCall.fd info.stdout_fd] else []) ++
    (if info.stderr_fd ≥ 0 then [CloseCall.fd info.stderr_fd] else []) ++
    (if info.hProcess ≠ 0 then [CloseCall.handle info.hProcess] else []) ++
    (if info.hThread ≠ 0 then [CloseCall.handle info.hThread] else [])
  (proc_info_sentinel, calls)

/-- Fixed handle identities for the six pipe ends `win32_create_process`
can create (all nonzero, i.e. non-NULL). -/
def hStdinRead : Nat := 1

def hStdinWrite : Nat := 2

def hStdoutRead : Nat := 3

def hStdoutWrite : Nat := 4

def hStderrRead : Nat := 5

def hStderrWrite : Nat := 6

/-- The six pipe handles the `error:` label of `win32_create_process`
closes (each guarded by its non-NULL test in the C code). -/
def spawn_all_pipe_handles : List Nat :=
  [hStdinRead, hStdinWrite, hStdoutRead, hStdoutWrite, hStderrRead, hStderrWrite]

/-- Outcomes of the fallible steps inside `win32_create_process`:
pipe creations, the command-line allocation, `CreateProcessW` (with its
`GetLastError` code on failure), the child identifiers on success, and
the `_open_osfhandle` conversion results. -/
structure SpawnEnv where
  stdinPipeOk : Bool
  stdoutPipeOk : Bool
  stderrPipeOk : Bool
  mallocOk : Bool
  createOk : Bool
  lastError : Nat
  childPid : Nat
  childProcessHandle : Nat
  childThreadHandle : Nat
  osfhandleFd : Nat → Int

/-- Result of `win32_create_process`: the C return value, the errno value
written during the call (none = errno untouched), the filled-in process
record, and the raw pipe handles the parent still holds open on return
(ownership of a handle converted by `_open_osfhandle` moves into the
returned descriptor and leaves this list). -/
structure SpawnResult where
  ret : Int
  errnoSet : Option Int
  info : win32_process_info
  openHandles : List Nat

/-- The `error:` label of `win32_create_process` (lines 233-241): close
every one of the six pipe handles that is non-NULL — i.e. every handle in
`opened` — and return -1 with the record still all-sentinel. -/
def spawn_error_exit (opened : List Nat) (e : Option Int) : SpawnResult :=
  { ret := -1, errnoSet := e, info := proc_info_sentinel
    openHandles := opened.filter (fun x => !(spawn_all_pipe_handles.contains x)) }

/-- The errno categorization of a failed `CreateProcessW`
(process_win32.c lines 195-207). -/
def categorize_create_error (err : Nat) : Int :=
  if err = ERROR_FILE_NOT_FOUND ∨ err = ERROR_PATH_NOT_FOUND then ENOENT
  else if err = ERROR_ACCESS_DENIED then EACCES
  else ECHILD

/-- `_open_osfhandle` on handle `h`: on success (fd ≥ 0) ownership of the
raw handle moves into the descriptor, on failure the handle stays open. -/
def convert_osfhandle (env : SpawnEnv) (opened : List Nat) (h : Nat) :
    Int × List Nat :=
  let fd := env.osfhandleFd h
  if fd ≥ 0 then (fd, opened.filter (fun x => x != h)) else (fd, opened)

/-- `win32_create_process` (process_win32.c lines 114-242), over the three
redirect flags. Follows the C control flow: create the requested pipes in
order (stdin, stdout, stderr), allocate the command line, call
`CreateProcessW`; any failure jumps to the error label. On success, close
the child-side pipe ends and convert the parent-side ends to CRT
descriptors. -/
def win32_create_process (env : SpawnEnv)
    (redirect_stdin redirect_stdout redirect_stderr : Bool) : SpawnResult :=
  if redirect_stdin && !env.stdinPipeOk then spawn_error_exit [] none
  else
    let h1 : List Nat := if redirect_stdin then [hStdinRead, hStdinWrite] else []
    if redirect_stdout && !env.stdoutPipeOk then spawn_error_exit h1 none
    else
      let h2 : List Nat := h1 ++ (if redirect_stdout then [hStdoutRead, hStdoutWrite] else [])
      if redirect_stderr && !env.stderrPipeOk then spawn_error_exit h2 none
      else
        let h3 : List Nat := h2 ++ (if redirect_stderr then [hStderrRead, hStderrWrite] else [])
        if !env.mallocOk then spawn_error_exit h3 (some ENOMEM)
        else if !env.createOk then
          spawn_error_exit h3 (some (categorize_create_error env.lastError))
        else
          let childSide : List Nat := [hStdinRead, hStdoutWrite, hStderrWrite]
          let opened0 := h3.filter (fun x => !(childSide.contains x))
          let step1 :=
            if redirect_stdin then convert_osfhandle env opened0 hStdinWrite
            else (-1, opened0)
          let step2 :=
            if redirect_stdout then convert_osfhandle env step1.2 hStdoutRead
            else (-1, step1.2)
          let step3 :=
            if redirect_stderr then convert_osfhandle env step2.2 hStderrRead
            else (-1, step2.2)
          { ret := 0, errnoSet := none
            info := { pid := env.childPid
                      hProcess := env.childProcessHandle
                      hThread := env.childThreadHandle
                      stdin_fd := step1.1, stdout_fd := step2.1, stderr_fd := step3.1 }
            openHandles := step3.2 }

/-- `needs_quotes` test of `build_command_line` (process_win32.c lines
60-62): the argument contains a space, contains a tab, or is empty
(`argv[i][0] == '\0'`). Arguments are character lists. -/
def needs_quotes (a : List Char) : Bool :=
  a.contains ' ' || a.contains '\t' || a.isEmpty

/-- The per-argument loop of `build_command_line` (lines 56-71): emit a
separating space unless this is the first argument, then the argument,
wrapped in quotes when `needs_quotes` holds; the characters of the
argument itself are copied verbatim (no escaping). -/
def build_cmdline_loop : List (List Char) → Bool → List Char → List Char
  | [], _, acc => acc
  | a :: rest, first, acc =>
      let acc1 := if first then acc else acc ++ [' ']
      let acc2 := if needs_quotes a then acc1 ++ ['"'] else acc1
      let acc3 := acc2 ++ a
      let acc4 := if needs_quotes a then acc3 ++ ['"'] else acc3
      build_cmdline_loop rest false acc4

/-- `build_command_line` (process_win32.c lines 43-75), at the level of
the character sequence produced (the UTF-8 to UTF-16 conversion is the
identity on the abstract characters). -/
def build_command_line (argv : List (List Char)) : List Char :=
  build_cmdline_loop argv true []

/-- Modelled from the spec wording, for comparison with the code: quote
an argument exactly when it is empty or contains a space or tab, copying
its characters verbatim (no escaping of embedded quotes or
backslashes). -/
def spec_quote_arg (a : List Char) : List Char :=
  if a = [] ∨ a.contains ' ' = true ∨ a.contains '\t' = true then
    '"' :: a ++ ['"']
  else a

/-- Modelled from the spec wording, for comparison with the code: join
the quoted arguments with a single separating space. -/
def spec_command_line : List (List Char) → List Char
  | [] => []
  | [a] => spec_quote_arg a
  | a :: b :: rest => spec_quote_arg a ++ ' ' :: spec_command_line (b :: rest)

/-- The serialized tail of a command line: a leading separator before
each remaining argument (helper for relating the loop to the spec). -/
def spec_cmdline_tail : List (List Char) → List Char
  | [] => []
  | a :: rest => ' ' :: spec_quote_arg a ++ spec_cmdline_tail rest

/-- A concrete `KillEnv` used to instantiate the kill theorems. -/
def kenv0 : KillEnv :=
  { currentPid := 99
    openQueryOk := fun _ => true
    openTermOk := fun _ => true
    terminateOk := fun _ => true }

/-- A concrete spawn environment in which the command-line allocation
fails (malloc returns NULL) and everything else would succeed. -/
def senv_nomem : SpawnEnv :=
  { stdinPipeOk := true, stdoutPipeOk := true, stderrPipeOk := true
    mallocOk := false, createOk := true, lastError := 0
    childPid := 0, childProcessHandle := 0, childThreadHandle := 0
    osfhandleFd := fun _ => -1 }

/-- A concrete spawn environment in which `CreateProcessW` fails with
`ERROR_FILE_NOT_FOUND` (nonexistent executable path) and every earlier
step succeeds. -/
def senv_notfound : SpawnEnv :=
  { stdinPipeOk := true, stdoutPipeOk := true, stderrPipeOk := true
    mallocOk := true, createOk := false, lastError := ERROR_FILE_NOT_FOUND
    childPid := 0, childProcessHandle := 0, childThreadHandle := 0
    osfhandleFd := fun _ => -1 }

/-! ## Theorems -/

/-- Claim C1, counterexample: with both events live and a custom SIGALRM
handler installed, the fired alarm callback does NOT set the interrupt
indicator consumed by block-until-interrupt — a subsequent
`win32_wait_interrupt` still times out (-1) — even though the handler was
invoked; the callback signals the separate alarm event instead. -/
theorem alarm_callback_indicator_counterexample :
    (alarm_timer_callback ⟨true, false, true, false, false, .dfl, .custom 7, .dfl⟩).1.interruptSet
      = false ∧
    (win32_wait_interrupt
      (alarm_timer_callback ⟨true, false, true, false, false, .dfl, .custom 7, .dfl⟩).1).2 = -1 ∧
    (alarm_timer_callback ⟨true, false, true, false, false, .dfl, .custom 7, .dfl⟩).2
      = [⟨7, SIGALRM⟩] ∧
    (alarm_timer_callback ⟨true, false, true, false, false, .dfl, .custom 7, .dfl⟩).1.alarmSet
      = true := by
  decide

/-- Claim C1, amended: when the armed alarm fires, the callback invokes
the registered SIGALRM handler iff that handler is neither SIG_DFL nor
SIG_IGN, leaves the interrupt indicator (`g_interrupt_event`, the one
consumed by block-until-interrupt) untouched, and signals the separate
timer-completion event `g_alarm_event` when it exists. -/
theorem alarm_timer_callback_spec (s : SigState) :
    ((alarm_timer_callback s).1.interruptSet = s.interruptSet) ∧
    (s.alarmEvent = true → (alarm_timer_callback s).1.alarmSet = true) ∧
    (∀ f, s.sigalrmHandler = Handler.custom f →
      (alarm_timer_callback s).2 = [⟨f, SIGALRM⟩]) ∧
    ((s.sigalrmHandler = Handler.dfl ∨ s.sigalrmHandler = Handler.ign) →
      (alarm_timer_callback s).2 = []) := by
  refine ⟨?_, ?_, ?_, ?_⟩
  · unfold alarm_timer_callback setAlarmEvent
    by_cases h : s.alarmEvent <;> simp [h]
  · intro h
    simp [alarm_timer_callback, setAlarmEvent, h]
  · intro f hf
    simp [alarm_timer_callback, hf]
  · rintro (h | h) <;> simp [alarm_timer_callback, h]

/-- Witness for the amended C1 theorem at a concrete state. -/
theorem alarm_timer_callback_spec_witness :
    (alarm_timer_callback ⟨true, true, true, false, false, .dfl, .custom 7, .dfl⟩).1.alarmSet
      = true ∧
    (alarm_timer_callback ⟨true, true, true, false, false, .dfl, .custom 7, .dfl⟩).2
      = [⟨7, SIGALRM⟩] :=
  ⟨(alarm_timer_callback_spec _).2.1 rfl, (alarm_timer_callback_spec _).2.2.1 7 rfl⟩

/-- Claim C3: the console control callback — on Ctrl-C/Ctrl-Break with a
custom handler it invokes the handler, sets the interrupt indicator, and
reports handled; with SIG_DFL it reports not handled and invokes
nothing; with SIG_IGN it still sets the indicator and reports handled;
on close/logoff/shutdown it always sets the indicator and reports not
handled (stated for a state whose interrupt event exists). -/
theorem win32_ctrl_handler_spec (s : SigState) (hev : s.interruptEvent = true) :
    (∀ ev, (ev = CtrlEvent.ctrlC ∨ ev = CtrlEvent.ctrlBreak) →
      (∀ f, s.sigintHandler = Handler.custom f →
        win32_ctrl_handler s ev = ({ s with interruptSet := true }, [⟨f, SIGINT⟩], true)) ∧
      (s.sigintHandler = Handler.dfl → win32_ctrl_handler s ev = (s, [], false)) ∧
      (s.sigintHandler = Handler.ign →
        win32_ctrl_handler s ev = ({ s with interruptSet := true }, [], true))) ∧
    (∀ ev, (ev = CtrlEvent.close ∨ ev = CtrlEvent.logoff ∨ ev = CtrlEvent.shutdown) →
      win32_ctrl_handler s ev = ({ s with interruptSet := true }, [], false)) := by
  constructor
  · rintro ev (rfl | rfl) <;>
      exact ⟨fun f hf => by simp [win32_ctrl_handler, setInterruptEvent, hev, hf],
             fun hd => by simp [win32_ctrl_handler, hd],
             fun hi => by simp [win32_ctrl_handler, setInterruptEvent, hev, hi]⟩
  · rintro ev (rfl | rfl | rfl) <;> simp [win32_ctrl_handler, setInterruptEvent, hev]

/-- Witness for C3 at a concrete state and the Ctrl-C event. -/
theorem win32_ctrl_handler_spec_witness :
    win32_ctrl_handler ⟨true, false, false, false, false, .custom 5, .dfl, .dfl⟩
        CtrlEvent.ctrlC =
      (⟨true, true, false, false, false, .custom 5, .dfl, .dfl⟩, [⟨5, SIGINT⟩], true) :=
  ((win32_ctrl_handler_spec _ rfl).1 CtrlEvent.ctrlC (Or.inl rfl)).1 5 rfl

/-- Claim C4: with an installed custom interrupt handler, kill targeted
at the current process with SIGINT invokes that handler exactly once
(one synchronous call on the caller's thread, recorded in kill's own
call list), leaves the state — in particular the interrupt indicator —
unchanged, and returns 0. -/
theorem win32_kill_self_custom (env : KillEnv) (s : SigState) (f : Nat)
    (hf : s.sigintHandler = Handler.custom f) :
    win32_kill env s env.currentPid SIGINT = (s, [⟨f, SIGINT⟩], KillResult.ret 0) := by
  simp [win32_kill, hf]

/-- Witness for C4 at a concrete environment and state. -/
theorem win32_kill_self_custom_witness :
    win32_kill kenv0 ⟨true, false, false, false, false, .custom 5, .dfl, .dfl⟩ 99 SIGINT =
      (⟨true, false, false, false, false, .custom 5, .dfl, .dfl⟩, [⟨5, SIGINT⟩],
        KillResult.ret 0) :=
  win32_kill_self_custom kenv0 _ 5 rfl

/-- Claim C5: `win32_close_process` closes each descriptor ≥ 0 and each
non-NULL handle present, resets the record to the all-sentinel state,
and is idempotent — a second close on the result performs no close calls
and leaves the record at the sentinel state. -/
theorem win32_close_process_spec (info : win32_process_info) :
    ((win32_close_process info).1 = proc_info_sentinel) ∧
    (info.stdin_fd ≥ 0 → CloseCall.fd info.stdin_fd ∈ (win32_close_process info).2) ∧
    (info.stdout_fd ≥ 0 → CloseCall.fd info.stdout_fd ∈ (win32_close_process info).2) ∧
    (info.stderr_fd ≥ 0 → CloseCall.fd info.stderr_fd ∈ (win32_close_process info).2) ∧
    (info.hProcess ≠ 0 → CloseCall.handle info.hProcess ∈ (win32_close_process info).2) ∧
    (info.hThread ≠ 0 → CloseCall.handle info.hThread ∈ (win32_close_process info).2) ∧
    (win32_close_process ((win32_close_process info).1) = (proc_info_sentinel, [])) := by
  refine ⟨rfl, ?_, ?_, ?_, ?_, ?_, rfl⟩ <;>
    intro h <;> simp [win32_close_process, h]

/-- Witness for C5 at a fully populated concrete record. -/
theorem win32_close_process_spec_witness :
    CloseCall.fd 3 ∈ (win32_close_process ⟨10, 7, 8, 3, 4, 5⟩).2 ∧
    CloseCall.handle 7 ∈ (win32_close_process ⟨10, 7, 8, 3, 4, 5⟩).2 ∧
    win32_close_process ((win32_close_process ⟨10, 7, 8, 3, 4, 5⟩).1) =
      (proc_info_sentinel, []) :=
  ⟨(win32_close_process_spec _).2.1 (by decide),
   (win32_close_process_spec _).2.2.2.2.1 (by decide),
   (win32_close_process_spec _).2.2.2.2.2.2⟩

/-- Claim C6: `win32_signal` swaps and returns the registry slot for
SIGINT, SIGALRM and SIGUSR1 — updating only that slot — and delegates
every other signal to the CRT facility unchanged. -/
theorem win32_signal_spec (s : SigState) (h : Handler) :
    (win32_signal s SIGINT h =
      SigRegResult.registered s.sigintHandler { s with sigintHandler := h }) ∧
    (win32_signal s SIGALRM h =
      SigRegResult.registered s.sigalrmHandler { s with sigalrmHandler := h }) ∧
    (win32_signal s SIGUSR1 h =
      SigRegResult.registered s.sigusr1Handler { s with sigusr1Handler := h }) ∧
    (∀ sig : Int, sig ≠ SIGINT → sig ≠ SIGALRM → sig ≠ SIGUSR1 →
      win32_signal s sig h = SigRegResult.delegated sig h) := by
  refine ⟨?_, ?_, ?_, ?_⟩
  · simp [win32_signal]
  · simp [win32_signal, SIGINT, SIGALRM]
  · simp [win32_signal, SIGINT, SIGALRM, SIGUSR1]
  · intro sig h1 h2 h3
    simp [win32_signal, h1, h2, h3]

/-- Witness for C6: signal 9 (outside the emulated set) is delegated. -/
theorem win32_signal_spec_witness :
    win32_signal ⟨true, false, false, false, false, .dfl, .dfl, .dfl⟩ 9 Handler.ign =
      SigRegResult.delegated 9 Handler.ign :=
  (win32_signal_spec _ _).2.2.2 9 (by decide) (by decide) (by decide)

/-- Claim C7: `win32_alarm` always returns 0 (also on timer-creation
failure); it cancels any existing timer first, unconditionally; with
duration 0 it is purely a cancellation — the action log holds at most
the cancellation and no timer exists afterwards. -/
theorem win32_alarm_spec (s : SigState) (seconds : Nat) (createOk : Bool) :
    ((win32_alarm s seconds createOk).2.2 = 0) ∧
    (s.alarmTimer = true →
      ((win32_alarm s seconds createOk).2.1).head? = some TimerAction.cancel) ∧
    (seconds = 0 →
      (win32_alarm s seconds createOk).2.1 =
        (if s.alarmTimer then [TimerAction.cancel] else []) ∧
      (win32_alarm s seconds createOk).1.alarmTimer = false) := by
  cases ht : s.alarmTimer <;> by_cases hs : seconds = 0 <;> cases hc : createOk <;>
    simp [win32_alarm, ht, hs, hc]

/-- Witness for C7: disarming (duration 0) with a live timer cancels it
and returns 0. -/
theorem win32_alarm_spec_witness :
    (win32_alarm ⟨true, false, true, false, true, .dfl, .dfl, .dfl⟩ 0 true).2.1 =
      [TimerAction.cancel] ∧
    (win32_alarm ⟨true, false, true, false, true, .dfl, .dfl, .dfl⟩ 0 true).1.alarmTimer
      = false :=
  (win32_alarm_spec ⟨true, false, true, false, true, .dfl, .dfl, .dfl⟩ 0 true).2.2 rfl

/-- Claim C8 (code bug evidence): when the interrupt event is created but
the alarm event creation fails, `win32_signals_init` does return -1, but
the already-created interrupt event is left open — no rollback happens,
so a kernel object outlives the failed initialization. -/
theorem win32_signals_init_leak :
    (win32_signals_init ⟨true, false, true, true⟩).2 = -1 ∧
    (win32_signals_init ⟨true, false, true, true⟩).1.interruptEvent = true := by
  decide

/-- Claim C10: `win32_kill` treats pid 0 exactly like the current pid for
every signal, and for SIGINT with the stored handler at SIG_DFL or
SIG_IGN it returns 0 without invoking any handler, raising, or changing
the state. -/
theorem win32_kill_pid0_spec (env : KillEnv) (s : SigState) :
    (∀ sig : Int, win32_kill env s 0 sig = win32_kill env s env.currentPid sig) ∧
    ((s.sigintHandler = Handler.dfl ∨ s.sigintHandler = Handler.ign) →
      win32_kill env s 0 SIGINT = (s, [], KillResult.ret 0)) := by
  constructor
  · intro sig
    simp [win32_kill]
  · rintro (h | h) <;> simp [win32_kill, h]

/-- Witness for C10 at a concrete environment with the default
disposition stored. -/
theorem win32_kill_pid0_spec_witness :
    win32_kill kenv0 ⟨true, false, false, false, false, .dfl, .dfl, .dfl⟩ 0 SIGINT =
      (⟨true, false, false, false, false, .dfl, .dfl, .dfl⟩, [], KillResult.ret 0) :=
  (win32_kill_pid0_spec kenv0 _).2 (Or.inl rfl)

/-- The Bool quoting test agrees with the propositional quoting
condition of the spec. -/
theorem needs_quotes_iff (a : List Char) :
    needs_quotes a = true ↔
      (a = [] ∨ a.contains ' ' = true ∨ a.contains '\t' = true) := by
  unfold needs_quotes
  simp [Bool.or_eq_true, List.isEmpty_iff]
  tauto

/-- Unfolding of `spec_quote_arg` when quoting is required. -/
theorem spec_quote_arg_pos (a : List Char) (h : needs_quotes a = true) :
    spec_quote_arg a = '"' :: a ++ ['"'] := by
  unfold spec_quote_arg
  rw [if_pos ((needs_quotes_iff a).mp h)]

/-- Unfolding of `spec_quote_arg` when no quoting is required. -/
theorem spec_quote_arg_neg (a : List Char) (h : needs_quotes a = false) :
    spec_quote_arg a = a := by
  have hnp : ¬(a = [] ∨ a.contains ' ' = true ∨ a.contains '\t' = true) := by
    intro hp
    rw [(needs_quotes_iff a).mpr hp] at h
    exact Bool.noConfusion h
  unfold spec_quote_arg
  rw [if_neg hnp]

/-- After the first argument, the loop appends exactly the serialized
tail to the accumulator. -/
theorem build_cmdline_loop_false (l : List (List Char)) :
    ∀ acc : List Char, build_cmdline_loop l false acc = acc ++ spec_cmdline_tail l := by
  induction l with
  | nil =>
      intro acc
      simp [build_cmdline_loop, spec_cmdline_tail]
  | cons a rest ih =>
      intro acc
      by_cases h : needs_quotes a = true
      · simp [build_cmdline_loop, spec_cmdline_tail, h, ih, spec_quote_arg_pos a h,
          List.append_assoc]
      · have h' : needs_quotes a = false := by simpa using h
        simp [build_cmdline_loop, spec_cmdline_tail, h', ih, spec_quote_arg_neg a h',
          List.append_assoc]

/-- The spec-side join splits into head and separated tail. -/
theorem spec_command_line_cons (a : List Char) (rest : List (List Char)) :
    spec_command_line (a :: rest) = spec_quote_arg a ++ spec_cmdline_tail rest := by
  induction rest generalizing a with
  | nil =>
      simp [spec_command_line, spec_cmdline_tail]
  | cons b rest ih =>
      simp only [spec_command_line, spec_cmdline_tail]
      rw [ih b]
      simp [List.append_assoc]

/-- Claim C9: `build_command_line` produces exactly the spec-side
serialization — arguments joined by a single separating space, an
argument quoted precisely when it is empty or contains a space or tab,
and the characters of each argument (including any embedded quote or
backslash) copied verbatim with no escaping. -/
theorem build_command_line_spec (argv : List (List Char)) :
    build_command_line argv = spec_command_line argv := by
  cases argv with
  | nil => rfl
  | cons a rest =>
      rw [spec_command_line_cons]
      by_cases h : needs_quotes a = true
      · simp [build_command_line, build_cmdline_loop, h, build_cmdline_loop_false,
          spec_quote_arg_pos a h, List.append_assoc]
      · have h' : needs_quotes a = false := by simpa using h
        simp [build_command_line, build_cmdline_loop, h', build_cmdline_loop_false,
          spec_quote_arg_neg a h', List.append_assoc]

/-- A failed `CreateProcessW` is always categorized into one of the three
POSIX errno values. -/
theorem categorize_create_error_mem (err : Nat) :
    categorize_create_error err = ENOENT ∨ categorize_create_error err = EACCES ∨
      categorize_create_error err = ECHILD := by
  unfold categorize_create_error ERROR_FILE_NOT_FOUND ERROR_PATH_NOT_FOUND ERROR_ACCESS_DENIED
  by_cases h1 : err = 2
  · simp [h1]
  · by_cases h1b : err = 3
    · simp [h1b]
    · by_cases h2 : err = 5 <;> simp [h1, h1b, h2]

/-- Claim C2, counterexample: when the command-line allocation fails
(malloc returns NULL), `win32_create_process` fails with errno ENOMEM,
which is none of the three categories the claim allows. -/
theorem win32_create_process_errno_counterexample :
    (win32_create_process senv_nomem false false false).ret = -1 ∧
    ¬((win32_create_process senv_nomem false false false).errnoSet = some ENOENT ∨
      (win32_create_process senv_nomem false false false).errnoSet = some EACCES ∨
      (win32_create_process senv_nomem false false false).errnoSet = some ECHILD) ∧
    (win32_create_process senv_nomem false false false).errnoSet = some ENOMEM := by
  decide

/-- Claim C2, amended: on every failing execution of
`win32_create_process`, all pipe handles created before the failure are
closed (none remain open) and the record keeps all three descriptor
fields at the sentinel -1; and when the failure is `CreateProcessW`
itself (every pipe requested was created and the allocation succeeded),
the reported errno is exactly one of ENOENT, EACCES, ECHILD. -/
theorem win32_create_process_failure_spec (env : SpawnEnv) (r1 r2 r3 : Bool)
    (hret : (win32_create_process env r1 r2 r3).ret = -1) :
    (win32_create_process env r1 r2 r3).openHandles = [] ∧
    (win32_create_process env r1 r2 r3).info.stdin_fd = -1 ∧
    (win32_create_process env r1 r2 r3).info.stdout_fd = -1 ∧
    (win32_create_process env r1 r2 r3).info.stderr_fd = -1 ∧
    ((r1 = true → env.stdinPipeOk = true) →
      (r2 = true → env.stdoutPipeOk = true) →
      (r3 = true → env.stderrPipeOk = true) →
      env.mallocOk = true →
      ((win32_create_process env r1 r2 r3).errnoSet = some ENOENT ∨
       (win32_create_process env r1 r2 r3).errnoSet = some EACCES ∨
       (win32_create_process env r1 r2 r3).errnoSet = some ECHILD)) := by
  by_cases c1 : (r1 && !env.stdinPipeOk) = true
  · have hr : win32_create_process env r1 r2 r3 = spawn_error_exit [] none := by
      simp only [win32_create_process]
      rw [if_pos c1]
    rw [hr]
    refine ⟨rfl, rfl, rfl, rfl, ?_⟩
    intro h1 _ _ _
    rw [Bool.and_eq_true] at c1
    rw [h1 c1.1] at c1
    simp at c1
  · by_cases c2 : (r2 && !env.stdoutPipeOk) = true
    · have hr : win32_create_process env r1 r2 r3 =
          spawn_error_exit (if r1 then [hStdinRead, hStdinWrite] else []) none := by
        simp only [win32_create_process]
        rw [if_neg c1, if_pos c2]
      rw [hr]
      refine ⟨?_, rfl, rfl, rfl, ?_⟩
      · cases r1 <;> rfl
      · intro _ h2 _ _
        rw [Bool.and_eq_true] at c2
        rw [h2 c2.1] at c2
        simp at c2
    · by_cases c3 : (r3 && !env.stderrPipeOk) = true
      · have hr : win32_create_process env r1 r2 r3 =
            spawn_error_exit
              ((if r1 then [hStdinRead, hStdinWrite] else []) ++
                (if r2 then [hStdoutRead, hStdoutWrite] else [])) none := by
          simp only [win32_create_process]
          rw [if_neg c1, if_neg c2, if_pos c3]
        rw [hr]
        refine ⟨?_, rfl, rfl, rfl, ?_⟩
        · cases r1 <;> cases r2 <;> rfl
        · intro _ _ h3 _
          rw [Bool.and_eq_true] at c3
          rw [h3 c3.1] at c3
          simp at c3
      · by_cases c4 : (!env.mallocOk) = true
        · have hr : win32_create_process env r1 r2 r3 =
              spawn_error_exit
                ((if r1 then [hStdinRead, hStdinWrite] else []) ++
                  (if r2 then [hStdoutRead, hStdoutWrite] else []) ++
                  (if r3 then [hStderrRead, hStderrWrite] else [])) (some ENOMEM) := by
            simp only [win32_create_process]
            rw [if_neg c1, if_neg c2, if_neg c3, if_pos c4]
          rw [hr]
          refine ⟨?_, rfl, rfl, rfl, ?_⟩
          · cases r1 <;> cases r2 <;> cases r3 <;> rfl
          · intro _ _ _ h4
            rw [h4] at c4
            simp at c4
        · by_cases c5 : (!env.createOk) = true
          · have hr : win32_create_process env r1 r2 r3 =
                spawn_error_exit
                  ((if r1 then [hStdinRead, hStdinWrite] else []) ++
                    (if r2 then [hStdoutRead, hStdoutWrite] else []) ++
                    (if r3 then [hStderrRead, hStderrWrite] else []))
                  (some (categorize_create_error env.lastError)) := by
              simp only [win32_create_process]
              rw [if_neg c1, if_neg c2, if_neg c3, if_neg c4, if_pos c5]
            rw [hr]
            refine ⟨?_, rfl, rfl, rfl, ?_⟩
            · cases r1 <;> cases r2 <;> cases r3 <;> rfl
            · intro _ _ _ _
              rcases categorize_create_error_mem env.lastError with h | h | h
              · exact Or.inl (by simp [spawn_error_exit, h])
              · exact Or.inr (Or.inl (by simp [spawn_error_exit, h]))
              · exact Or.inr (Or.inr (by simp [spawn_error_exit, h]))
          · have hr0 : (win32_create_process env r1 r2 r3).ret = 0 := by
              simp only [win32_create_process]
              rw [if_neg c1, if_neg c2, if_neg c3, if_neg c4, if_neg c5]
            rw [hr0] at hret
            exact absurd hret (by decide)

/-- Witness for the amended C2 theorem: a spawn with all three streams
redirected whose `CreateProcessW` fails with ERROR_FILE_NOT_FOUND leaves
no pipe handle open and reports one of the three categories. -/
theorem win32_create_process_failure_spec_witness :
    (win32_create_process senv_notfound true true true).openHandles = [] ∧
    ((win32_create_process senv_notfound true true true).errnoSet = some ENOENT ∨
     (win32_create_process senv_notfound true true true).errnoSet = some EACCES ∨
     (win32_create_process senv_notfound true true true).errnoSet = some ECHILD) := by
  have h := win32_create_process_failure_spec senv_notfound true true true (by decide)
  exact ⟨h.1, h.2.2.2.2 (fun _ => rfl) (fun _ => rfl) (fun _ => rfl) rfl⟩

end CiaoWin32
